import Mathlib

/-!
Verification of the drama-director shot-generation and continuity pipeline.

The definitions below are a shallow embedding of the TypeScript source:

* `withRetry`, `isRetryable`, `retryDelay` embed the bounded retry loop of
  `src/services/gemini.ts` (function `withRetry`).  The wrapped effectful
  operation is modelled as a map from attempt index to outcome, and the
  trace records the result, the number of invocations and the waits.
* `Scene`, `Status`, `ImageStatus` embed the shot record of `src/types.ts`.
* The orchestrator handlers of the main component (`handleGenerateFirstFrame`,
  `handleGenerateVideo`, the continuity write callback and the frame
  extractor) are embedded as explicit state-passing functions over
  `List Scene`, with every `setScenes` updater a separate step.
* `compressDims` embeds the dimension arithmetic of `compressImage`, and
  `fillPrompts` the response-padding of `generatePromptsForContinuousSegments`.
-/

namespace DramaDirector

/-- JavaScript errors as probed by the retry loop: an optional numeric
`code` and an optional `status` string, plus the message used for
reporting.  (`e.code`, `e.status`, `e.message` in the source.) -/
structure JsError where
  code : Option Nat
  status : Option String
  message : String
deriving DecidableEq, Repr

/-- The error used when the loop body never ran (`throw lastError` with
`lastError` still `undefined`). -/
def undefinedError : JsError := { code := none, status := none, message := "" }

/-- Classification of retryable errors, from gemini.ts line 53:
`e.code === 503 || e.status === 'UNAVAILABLE' || e.code === 500 ||
 e.status === 'INTERNAL' || e.code === 429 || e.status === 'RESOURCE_EXHAUSTED'`. -/
def isRetryable (e : JsError) : Bool :=
  e.code == some 503 || e.status == some "UNAVAILABLE" || e.code == some 500 ||
  e.status == some "INTERNAL" || e.code == some 429 || e.status == some "RESOURCE_EXHAUSTED"

/-- The wait inserted before the next attempt, from gemini.ts line 55:
`(e.code === 429 ? 5000 : baseDelay) * Math.pow(2, i)`. -/
def retryDelay (e : JsError) (baseDelay i : Nat) : Nat :=
  (if e.code == some 429 then 5000 else baseDelay) * 2 ^ i

/-- Observable trace of one `withRetry` run: the surfaced result, how many
times the wrapped operation was invoked, and the list of waits (ms)
inserted between attempts. -/
structure RetryTrace (α : Type) where
  result : Except JsError α
  calls : Nat
  delays : List Nat
deriving Repr

/-- The retry loop of `withRetry` (gemini.ts lines 46-63), unrolled from
attempt index `i` with `remaining` loop iterations left
(`remaining = maxRetries - i`).  `atts j` is the outcome of the j-th
invocation of the wrapped operation. -/
def withRetryGo {α : Type} (atts : Nat → Except JsError α) (baseDelay : Nat)
    (lastError : Option JsError) (i : Nat) : Nat → RetryTrace α
  | 0 => { result := .error (lastError.getD undefinedError), calls := 0, delays := [] }
  | r + 1 =>
    match atts i with
    | .ok v => { result := .ok v, calls := 1, delays := [] }
    | .error e =>
      if isRetryable e = true ∧ 0 < r then
        let t := withRetryGo atts baseDelay (some e) (i + 1) r
        { result := t.result, calls := t.calls + 1,
          delays := retryDelay e baseDelay i :: t.delays }
      else { result := .error e, calls := 1, delays := [] }

/-- `withRetry(fn, maxRetries, baseDelay)` of gemini.ts, as a trace. -/
def withRetry {α : Type} (atts : Nat → Except JsError α)
    (maxRetries baseDelay : Nat) : RetryTrace α :=
  withRetryGo atts baseDelay none 0 maxRetries

/-- Source default for the retry bound (`maxRetries = 3`). -/
def defaultMaxRetries : Nat := 3

/-- Source default for the base delay (`baseDelay = 2000`). -/
def defaultBaseDelay : Nat := 2000

/-- Modelled from the spec: the classification of an error as a
"rate-limit/resource-exhaustion signal" (spec section 4.1), used to state the
claimed lower bound on the wait.  The code's retryable test treats both
`code 429` and `status RESOURCE_EXHAUSTED` as such signals. -/
def isRateLimitSignal (e : JsError) : Bool :=
  e.code == some 429 || e.status == some "RESOURCE_EXHAUSTED"

/-- A quota-exhaustion error carrying the RESOURCE_EXHAUSTED status but no
numeric 429 code. -/
def quotaErr : JsError :=
  { code := none, status := some "RESOURCE_EXHAUSTED", message := "quota exceeded" }

/-- A quota-exhaustion error carrying the numeric 429 code. -/
def err429 : JsError :=
  { code := some 429, status := some "RESOURCE_EXHAUSTED", message := "quota exceeded" }

/-- A transient 503 error. -/
def err503 : JsError :=
  { code := some 503, status := some "UNAVAILABLE", message := "service unavailable" }

/-- A non-retryable client error. -/
def err400 : JsError :=
  { code := some 400, status := some "INVALID_ARGUMENT", message := "bad request" }

/-- Operation that fails once with `quotaErr` and then succeeds. -/
def quotaAtts : Nat → Except JsError String :=
  fun i => if i = 0 then .error quotaErr else .ok "video"

/-- Operation that fails once with `err429` and then succeeds. -/
def atts429 : Nat → Except JsError String :=
  fun i => if i = 0 then .error err429 else .ok "video"

/-- Operation that fails once with `err503` and then succeeds. -/
def atts503 : Nat → Except JsError String :=
  fun i => if i = 0 then .error err503 else .ok "done"

/-- Operation that always fails with the non-retryable `err400`. -/
def attsBad : Nat → Except JsError String := fun _ => .error err400

/-- Video / main status of a shot (types.ts field `status`). -/
inductive Status where
  | idle
  | generating_video
  | completed
  | error
deriving DecidableEq, Repr

/-- First-frame image status of a shot (types.ts field `imageStatus`). -/
inductive ImageStatus where
  | idle
  | generating
  | completed
  | error
deriving DecidableEq, Repr

/-- The Scene record of types.ts.  Optional string properties are
`Option String` (`none` = the JS property is undefined); `targetAspect`
embeds the aspect-ratio tag recorded on video completion. -/
structure Scene where
  id : String
  scriptSegment : String
  visualPrompt : String
  imagePrompt : Option String
  videoUrl : Option String
  styleReferenceImage : Option String
  generatedImage : Option String
  status : Status
  errorMessage : Option String
  imageStatus : ImageStatus
  imageErrorMessage : Option String
  targetAspect : Option String
deriving DecidableEq, Repr

/-- The two app modes (part_000 line 15). -/
inductive AppMode where
  | storyboard
  | single
deriving DecidableEq, Repr

/-- JS string truthiness: the empty string is falsy. -/
def strTruthy (s : String) : Bool := !s.isEmpty

/-- JS truthiness of an optional string: undefined and "" are falsy. -/
def optTruthy : Option String → Bool
  | none => false
  | some s => strTruthy s

/-- JS `a || b` where `a` is an optional string and `b` a string. -/
def jsOrStr (a : Option String) (b : String) : String :=
  match a with
  | some s => if strTruthy s then s else b
  | none => b

/-- JS `a || b` for two optional strings. -/
def jsOrOpt (a b : Option String) : Option String :=
  if optTruthy a then a else b

/-- part_000 line 139: mark the target shot as generating its first frame
and clear its previous image error. -/
def startImageGenUpd (id : String) (prev : List Scene) : List Scene :=
  prev.map (fun s => if s.id == id then
    { s with imageStatus := .generating, imageErrorMessage := none } else s)

/-- part_000 line 162: record the generated image on success. -/
def imageSuccessUpd (id url : String) (prev : List Scene) : List Scene :=
  prev.map (fun s => if s.id == id then
    { s with generatedImage := some url, imageStatus := .completed } else s)

/-- part_000 line 164: record the image-generation failure on the target shot. -/
def imageErrorUpd (id msg : String) (prev : List Scene) : List Scene :=
  prev.map (fun s => if s.id == id then
    { s with imageStatus := .error, imageErrorMessage := some msg } else s)

/-- part_000 line 135 (handleUpdatePrompt): replace both prompts. -/
def updatePromptUpd (id : String) (newVideoPrompt : String)
    (newImagePrompt : Option String) (prev : List Scene) : List Scene :=
  prev.map (fun s => if s.id == id then
    { s with visualPrompt := newVideoPrompt, imagePrompt := newImagePrompt } else s)

/-- part_000 line 192: start video generation, clearing the previous error
and persisting a truthy prompt override. -/
def startVideoUpd (id : String) (promptOverride : Option String)
    (prev : List Scene) : List Scene :=
  prev.map (fun s => if s.id == id then
    { s with status := .generating_video, errorMessage := none,
             visualPrompt := jsOrStr promptOverride s.visualPrompt } else s)

/-- part_000 line 202: record the finished video and the aspect ratio used. -/
def videoSuccessUpd (id url ar : String) (prev : List Scene) : List Scene :=
  prev.map (fun s => if s.id == id then
    { s with status := .completed, videoUrl := some url,
             targetAspect := some ar } else s)

/-- part_000 line 228: record the video failure (`e.message || "未知错误"`). -/
def videoErrorUpd (id msg : String) (prev : List Scene) : List Scene :=
  prev.map (fun s => if s.id == id then
    { s with status := .error,
             errorMessage := some (jsOrStr (some msg) "未知错误") } else s)

/-- part_000 lines 214-223: the continuity write callback.  It re-resolves
the completed shot by id in the list current at write time, returns the list
unchanged when the shot is gone (`findIndex === -1`, here `findIdx = length`)
or is the last shot, and writes the extracted frame into the following slot
only if that slot is still empty at write time. -/
def continuityWrite (id frame : String) (prev : List Scene) : List Scene :=
  let idx := prev.findIdx (fun s => s.id == id)
  if idx = prev.length ∨ idx = prev.length - 1 then prev
  else
    match prev[idx + 1]? with
    | none => prev
    | some next =>
      if optTruthy next.generatedImage then prev
      else prev.set (idx + 1)
        { next with generatedImage := some frame, imageStatus := .completed }

/-- part_000 lines 205-226: the continuity step after a successful video
completion.  `snapshot` is the scene list captured when the handler was
invoked (the closure over `scenes`), `current` the list at write time.
Returns `some st` when the write callback was issued (the pre-check on the
snapshot passed and the extraction succeeded), `none` when no state update
happens — in particular an extraction failure is caught and only logged. -/
def continuityPhase (mode : AppMode) (snapshot : List Scene) (id : String)
    (extract : Except String String) (current : List Scene) : Option (List Scene) :=
  let sceneIndex := snapshot.findIdx (fun s => s.id == id)
  if mode = .single ∧ sceneIndex ≠ snapshot.length ∧ sceneIndex < snapshot.length - 1 then
    match snapshot[sceneIndex + 1]? with
    | none => none
    | some nextScene =>
      if optTruthy nextScene.generatedImage then none
      else
        match extract with
        | .ok frame => some (continuityWrite id frame current)
        | .error _ => none
  else none

/-- part_000 lines 191-230 (handleGenerateVideo), run sequentially: the list
of successive scene-list states produced by the handler's `setScenes` calls,
starting with the state at invocation.  `videoGen` is the outcome of the
video-generation collaborator and `extract` the outcome of the frame
extraction; `ar` is the global aspect-ratio setting. -/
def handleGenerateVideoStates (mode : AppMode) (ar : String) (id : String)
    (promptOverride : Option String) (videoGen : Except String String)
    (extract : Except String String) (scenes : List Scene) : List (List Scene) :=
  let s1 := startVideoUpd id promptOverride scenes
  match scenes.find? (fun s => s.id == id) with
  | none => [scenes, s1]
  | some _ =>
    match videoGen with
    | .error msg => [scenes, s1, videoErrorUpd id msg s1]
    | .ok url =>
      let s2 := videoSuccessUpd id url ar s1
      [scenes, s1, s2] ++ (continuityPhase mode scenes id extract s2).toList

/-- part_000 lines 138-166 (handleGenerateFirstFrame), run sequentially: the
successive scene-list states.  `promptGen` is the outcome of the first-frame
prompt collaborator (consulted only when neither the override nor the stored
prompt is truthy) and `imageGen` the outcome of the image-generation
collaborator. -/
def handleGenerateFirstFrameStates (id : String) (promptOverride : Option String)
    (promptGen : Except String String) (imageGen : Except String String)
    (scenes : List Scene) : List (List Scene) :=
  let s1 := startImageGenUpd id scenes
  match scenes.find? (fun s => s.id == id) with
  | none => [scenes, s1]
  | some scene =>
    if optTruthy (jsOrOpt promptOverride scene.imagePrompt) then
      match imageGen with
      | .ok url => [scenes, s1, imageSuccessUpd id url s1]
      | .error msg => [scenes, s1, imageErrorUpd id msg s1]
    else
      match promptGen with
      | .error msg => [scenes, s1, imageErrorUpd id msg s1]
      | .ok p =>
        let s2 := updatePromptUpd id scene.visualPrompt (some p) s1
        match imageGen with
        | .ok url => [scenes, s1, s2, imageSuccessUpd id url s2]
        | .error msg => [scenes, s1, s2, imageErrorUpd id msg s2]

/-- part_000 line 322: the manual add button appends a bare idle shot. -/
def addSceneUpd (newId : String) (prev : List Scene) : List Scene :=
  prev ++ [{ id := newId, scriptSegment := "新场景", visualPrompt := "新画面描述",
             imagePrompt := none, videoUrl := none, styleReferenceImage := none,
             generatedImage := none, status := .idle, errorMessage := none,
             imageStatus := .idle, imageErrorMessage := none, targetAspect := none }]

/-- The terminating events of extractLastFrameFromVideo (part_000, lines
168-189): the 10 s timeout fires first, the decoder signals onerror first,
or `capture` runs and succeeds, finds no 2d context, or throws. -/
inductive ExtractEvent where
  | timeoutFired
  | decodeFailed
  | captureOk (frame : String)
  | captureNoContext
  | captureThrew (msg : String)
deriving DecidableEq, Repr

/-- Observable outcome of the extractor: the settled promise value and
whether the media handle was released (`removeAttribute('src')` followed by
`load()`). -/
structure ExtractOutcome where
  result : Except String String
  released : Bool
deriving Repr

/-- part_000 lines 168-189: how extractLastFrameFromVideo settles for each
terminating event.  The cleanup sits in the `finally` of `capture` alone;
the timeout handler and the `onerror` handler only reject. -/
def extractLastFrameFromVideo : ExtractEvent → ExtractOutcome
  | .timeoutFired => { result := .error "提取超时", released := false }
  | .decodeFailed => { result := .error "Video error", released := false }
  | .captureOk frame => { result := .ok frame, released := true }
  | .captureNoContext => { result := .error "Context error", released := true }
  | .captureThrew msg => { result := .error msg, released := true }

/-- The exits that pass through capture's `finally` block. -/
def isCaptureEvent : ExtractEvent → Bool
  | .captureOk _ => true
  | .captureNoContext => true
  | .captureThrew _ => true
  | .timeoutFired => false
  | .decodeFailed => false

/-- JS `Math.round` on a nonnegative rational. -/
def jsRound (q : ℚ) : ℕ := (⌊q + 1 / 2⌋).toNat

/-- gemini.ts lines 20-26: the output canvas dimensions chosen by
compressImage for a decoded source of `w × h` and bound `maxWidth`. -/
def compressDims (w h maxWidth : ℕ) : ℕ × ℕ :=
  if maxWidth < w ∨ maxWidth < h then
    let scale : ℚ := min ((maxWidth : ℚ) / w) ((maxWidth : ℚ) / h)
    (jsRound (w * scale), jsRound (h * scale))
  else (w, h)

/-- The response triple of types.ts (GeneratedSceneResponse). -/
structure GeneratedSceneResponse where
  script_segment : String
  visual_prompt : String
  image_prompt : String
deriving DecidableEq, Repr

/-- One parsed entry of the batch prompt response; either field may be
absent or empty. -/
structure RawSceneResponse where
  visual_prompt : Option String
  image_prompt : Option String
deriving DecidableEq, Repr

/-- The failure placeholder written for missing prompt values. -/
def promptPlaceholder : String := "生成失败"

/-- gemini.ts lines 354-358: build the returned list by mapping over the
input segments, reading the parsed entry at the same absolute index
(`results[index]?.visual_prompt || "生成失败"`). -/
def fillPromptsFrom (results : List RawSceneResponse) :
    Nat → List String → List GeneratedSceneResponse
  | _, [] => []
  | index, seg :: rest =>
    { script_segment := seg,
      visual_prompt :=
        jsOrStr ((results[index]?).bind RawSceneResponse.visual_prompt) promptPlaceholder,
      image_prompt :=
        jsOrStr ((results[index]?).bind RawSceneResponse.image_prompt) promptPlaceholder }
      :: fillPromptsFrom results (index + 1) rest

/-- gemini.ts lines 329-362, the post-response tail of
generatePromptsForContinuousSegments: `parsed = none` models a JSON parse
failure (the catch throws "生成提示词失败"); otherwise the input segments are
mapped over the parsed entries. -/
def generatePromptsForContinuousSegments (segments : List String)
    (parsed : Option (List RawSceneResponse)) :
    Except String (List GeneratedSceneResponse) :=
  match parsed with
  | none => .error "生成提示词失败"
  | some results => .ok (fillPromptsFrom results 0 segments)

/-- Modelled from the spec: the transition discipline claimed in spec
section 8 for `imageState` — a single observed step either stays put or
follows `idle → generating → (completed | error)`. -/
def specImageStep (b a : ImageStatus) : Bool :=
  b == a || (b == .idle && a == .generating) ||
  (b == .generating && (a == .completed || a == .error))

/-- One observed video-state step of the embedded orchestrator: unchanged, a
(re)start of generation from any state, or resolution of a running
generation. -/
def videoStepOk (b a : Status) : Prop :=
  b = a ∨ a = .generating_video ∨
  (b = .generating_video ∧ (a = .completed ∨ a = .error))

/-- One observed image-state step: unchanged, a (re)start from any state,
resolution of a running generation, or the continuity write, which
completes a shot whose asset slot was still empty. -/
def imageStepOk (b a : Scene) : Prop :=
  b.imageStatus = a.imageStatus ∨ a.imageStatus = .generating ∨
  (b.imageStatus = .generating ∧ (a.imageStatus = .completed ∨ a.imageStatus = .error)) ∨
  (optTruthy b.generatedImage = false ∧ a.imageStatus = .completed)

/-- Combined per-shot step discipline. -/
def sceneStepOk (b a : Scene) : Prop := videoStepOk b.status a.status ∧ imageStepOk b a

/-- Pointwise step discipline between two successive scene-list states. -/
def listStepOk (b a : List Scene) : Prop :=
  ∀ (j : Nat) (sb sa : Scene), b[j]? = some sb → a[j]? = some sa → sceneStepOk sb sa

/-- A freshly created shot as built by handleConfirmSplitAndGenerate
(part_000 lines 122-130). -/
def initScene (id seg vp ip : String) : Scene :=
  { id := id, scriptSegment := seg, visualPrompt := vp, imagePrompt := some ip,
    videoUrl := none, styleReferenceImage := none, generatedImage := none,
    status := .idle, errorMessage := none, imageStatus := .idle,
    imageErrorMessage := none, targetAspect := none }

/-- Two freshly split shots of a continuous run. -/
def sceneA : Scene := initScene "a" "第一段" "画面一" "首帧一"

def sceneB : Scene := initScene "b" "第二段" "画面二" "首帧二"

/-- A shot with no stored image prompt (drives the lazy-prompt path). -/
def sceneNoPrompt : Scene :=
  { initScene "c" "第三段" "画面三" "" with imagePrompt := none }

/-- `sceneB` after the user has supplied a start-frame asset. -/
def sceneBFilled : Scene := { sceneB with generatedImage := some "user-upload" }

theorem withRetryGo_spec {α : Type} (atts : Nat → Except JsError α) (e : Nat → JsError)
    (v : α) (D : Nat) :
    ∀ k i r le, k < r →
    (∀ j, j < k → atts (i + j) = .error (e (i + j)) ∧ isRetryable (e (i + j)) = true) →
    atts (i + k) = .ok v →
    withRetryGo atts D le i r =
      { result := .ok v, calls := k + 1,
        delays := (List.range k).map (fun j => retryDelay (e (i + j)) D (i + j)) } := by
  intro k
  induction k with
  | zero =>
    intro i r le hk _ hsucc
    obtain ⟨r, rfl⟩ : ∃ q, r = q + 1 := ⟨r - 1, by omega⟩
    rw [Nat.add_zero] at hsucc
    simp [withRetryGo, hsucc]
  | succ k ih =>
    intro i r le hk hfail hsucc
    obtain ⟨r, rfl⟩ : ∃ q, r = q + 1 := ⟨r - 1, by omega⟩
    have h0 := hfail 0 (by omega)
    rw [Nat.add_zero] at h0
    have hr : 0 < r := by omega
    have hrec := ih (i + 1) r (some (e i)) (by omega)
      (fun j hj => by
        have hh := hfail (j + 1) (by omega)
        rwa [show i + (j + 1) = i + 1 + j by omega] at hh)
      (by rwa [show i + (k + 1) = i + 1 + k by omega] at hsucc)
    simp only [withRetryGo, h0.1]
    rw [if_pos ⟨h0.2, hr⟩, hrec]
    simp only [RetryTrace.mk.injEq, List.range_succ_eq_map, List.map_cons, List.map_map,
      List.cons.injEq, Nat.add_zero]
    refine ⟨trivial, trivial, trivial, ?_⟩
    apply List.map_congr_left
    intro j _
    simp only [Function.comp_apply]
    rw [show i + (j + 1) = i + 1 + j by omega]

/-- C3: for the retry executor with bound `N`: if the wrapped operation fails
with a retryable error exactly `k < N` times and then succeeds, the executor
returns the success value and the operation is invoked exactly `k + 1` times;
if the operation fails with a non-retryable error on its first invocation, it
is invoked exactly once and that error is surfaced unchanged. -/
theorem withRetry_retry_contract {α : Type} (atts : Nat → Except JsError α)
    (e : Nat → JsError) (v : α) (k N D : Nat) :
    (k < N →
      (∀ j, j < k → atts j = .error (e j) ∧ isRetryable (e j) = true) →
      atts k = .ok v →
      (withRetry atts N D).result = .ok v ∧ (withRetry atts N D).calls = k + 1) ∧
    (∀ e0, 0 < N → atts 0 = .error e0 → isRetryable e0 = false →
      (withRetry atts N D).result = .error e0 ∧ (withRetry atts N D).calls = 1) := by
  constructor
  · intro hk hfail hsucc
    have h := withRetryGo_spec atts e v D k 0 N none hk
      (fun j hj => by simpa using hfail j hj) (by simpa using hsucc)
    rw [withRetry, h]
    exact ⟨rfl, rfl⟩
  · intro e0 hN h0 hnr
    obtain ⟨q, rfl⟩ : ∃ q, N = q + 1 := ⟨N - 1, by omega⟩
    simp [withRetry, withRetryGo, h0, hnr]

/-- C3 witness: with an operation that fails retryably once (503) then
succeeds, the executor returns the success after exactly 2 invocations; with
an operation that always fails with a 400, the error surfaces after exactly
one invocation. -/
theorem withRetry_retry_contract_witness :
    ((withRetry atts503 3 2000).result = .ok "done" ∧
      (withRetry atts503 3 2000).calls = 2) ∧
    ((withRetry attsBad 3 2000).result = .error err400 ∧
      (withRetry attsBad 3 2000).calls = 1) := by
  constructor
  · exact (withRetry_retry_contract atts503 (fun _ => err503) "done" 1 3 2000).1
      (by decide)
      (fun j hj => by
        obtain rfl : j = 0 := by omega
        exact ⟨rfl, by decide⟩)
      rfl
  · exact (withRetry_retry_contract attsBad (fun _ => err503) "done" 1 3 2000).2
      err400 (by decide) rfl (by decide)

/-- C4 counterexample: `quotaErr` (status RESOURCE_EXHAUSTED, no numeric
code) is classified as a rate-limit/resource-exhaustion signal and is
retryable, yet the wait before the second attempt is 2000 ms, not the
claimed ≥ 5000 ms: the 5000 ms base is selected only on `code === 429`. -/
theorem rate_limit_signal_short_wait :
    isRateLimitSignal quotaErr = true ∧ isRetryable quotaErr = true ∧
    (withRetry quotaAtts 3 2000).calls = 2 ∧
    (withRetry quotaAtts 3 2000).delays = [2000] ∧
    ¬ 5000 ≤ 2000 := by
  refine ⟨by decide, by decide, by decide, by decide, by decide⟩

/-- C4 (amended): every retried retryable failure at attempt index `i` waits
exactly `(code = 429 ? 5000 : D) * 2^i` ms; an error whose `code` is 429
waits at least 5000 ms before the second attempt, while a retryable error
without code 429 (such as a bare RESOURCE_EXHAUSTED status) waits `D * 2^i`. -/
theorem withRetry_backoff_delays {α : Type} (atts : Nat → Except JsError α)
    (e : Nat → JsError) (v : α) (k N D : Nat) (hk : k < N)
    (hfail : ∀ j, j < k → atts j = .error (e j) ∧ isRetryable (e j) = true)
    (hsucc : atts k = .ok v) :
    (withRetry atts N D).delays
      = (List.range k).map (fun i => (if (e i).code == some 429 then 5000 else D) * 2 ^ i) ∧
    ((e 0).code = some 429 → 0 < k → 5000 ≤ (withRetry atts N D).delays.headD 0) := by
  have h := withRetryGo_spec atts e v D k 0 N none hk
    (fun j hj => by simpa using hfail j hj) (by simpa using hsucc)
  rw [withRetry, h]
  constructor
  · simp [retryDelay]
  · intro h429 hk0
    obtain ⟨q, rfl⟩ : ∃ q, k = q + 1 := ⟨k - 1, by omega⟩
    simp [List.range_succ_eq_map, retryDelay, h429]

/-- C4 witness: the RESOURCE_EXHAUSTED-without-429 run waits the base-delay
schedule `[2000 * 2^0]`, and the 429 run waits at least 5000 ms before its
second attempt. -/
theorem withRetry_backoff_delays_witness :
    (withRetry quotaAtts 3 2000).delays
      = (List.range 1).map (fun i => (if quotaErr.code == some 429 then 5000 else 2000) * 2 ^ i) ∧
    5000 ≤ (withRetry atts429 3 2000).delays.headD 0 := by
  constructor
  · exact (withRetry_backoff_delays quotaAtts (fun _ => quotaErr) "video" 1 3 2000
      (by decide)
      (fun j hj => by
        obtain rfl : j = 0 := by omega
        exact ⟨rfl, by decide⟩)
      rfl).1
  · exact (withRetry_backoff_delays atts429 (fun _ => err429) "video" 1 3 2000
      (by decide)
      (fun j hj => by
        obtain rfl : j = 0 := by omega
        exact ⟨rfl, by decide⟩)
      rfl).2 rfl (by decide)

theorem findIdx_append_cons {α : Type} (p : α → Bool) (pre : List α) (a : α)
    (l : List α) (hpre : ∀ t ∈ pre, p t = false) (ha : p a = true) :
    (pre ++ a :: l).findIdx p = pre.length := by
  induction pre with
  | nil => simp [List.findIdx_cons, ha]
  | cons x xs ih =>
    have hx : p x = false := hpre x (by simp)
    simp only [List.cons_append, List.findIdx_cons, hx, cond_false, List.length_cons]
    rw [ih (fun t ht => hpre t (by simp [ht]))]

theorem set_append_length_add {α : Type} (l1 l2 : List α) (n : Nat) (a : α) :
    (l1 ++ l2).set (l1.length + n) a = l1 ++ l2.set n a := by
  induction l1 with
  | nil => simp
  | cons x xs ih =>
    have harith : (x :: xs).length + n = (xs.length + n) + 1 := by
      simp [List.length_cons]; omega
    rw [harith]
    simp only [List.cons_append, List.set_cons_succ]
    rw [ih]

theorem continuityPhase_eq_some (mode : AppMode) (snapshot current st : List Scene)
    (id : String) (extract : Except String String)
    (hw : continuityPhase mode snapshot id extract current = some st) :
    ∃ frame, extract = .ok frame ∧ st = continuityWrite id frame current := by
  simp only [continuityPhase] at hw
  split at hw
  · split at hw
    · cases hw
    · split at hw
      · cases hw
      · split at hw
        · rename_i frame
          exact ⟨frame, rfl, (Option.some_inj.mp hw).symm⟩
        · cases hw
  · cases hw

theorem continuityWrite_preserves_truthy (id frame : String) (current : List Scene)
    (j : Nat) (sb : Scene) (hj : current[j]? = some sb)
    (ht : optTruthy sb.generatedImage = true) :
    (continuityWrite id frame current)[j]? = some sb := by
  simp only [continuityWrite]
  split
  · exact hj
  · split
    · exact hj
    · rename_i hnext
      split
      · exact hj
      · rename_i hfalse
        by_cases hji : current.findIdx (fun s => s.id == id) + 1 = j
        · subst hji
          rw [hnext] at hj
          cases hj
          exact absurd ht (by simpa using hfalse)
        · rw [List.getElem?_set_ne hji]
          exact hj

/-- C1: if the next shot's start-frame asset is already non-empty at the
initial check (on the snapshot the handler closed over), the continuity step
issues no state update at all; and whenever the continuity write callback
does run, every shot whose asset slot is non-empty in the write-time list is
left exactly as it is — the extracted frame is written only into a slot that
is still empty at write time. -/
theorem continuity_first_writer_wins (mode : AppMode) (snapshot current : List Scene)
    (id : String) (extract : Except String String) :
    (∀ ns, snapshot[snapshot.findIdx (fun s => s.id == id) + 1]? = some ns →
      optTruthy ns.generatedImage = true →
      continuityPhase mode snapshot id extract current = none) ∧
    (∀ st (j : Nat) (sb : Scene),
      continuityPhase mode snapshot id extract current = some st →
      current[j]? = some sb → optTruthy sb.generatedImage = true →
      st[j]? = some sb) := by
  constructor
  · intro ns hns htruthy
    simp only [continuityPhase]
    split
    · rw [hns]
      simp [htruthy]
    · rfl
  · intro st j sb hw hsb htruthy
    obtain ⟨frame, -, rfl⟩ := continuityPhase_eq_some mode snapshot current st id extract hw
    exact continuityWrite_preserves_truthy id frame current j sb hsb htruthy

/-- C1 witness: with shot b's asset already user-supplied in the snapshot the
step is a no-op; and at a concrete issued write, the filled slot of the
write-time list is untouched. -/
theorem continuity_first_writer_wins_witness :
    continuityPhase .single [sceneA, sceneBFilled] "a" (.ok "帧")
      [sceneA, sceneBFilled] = none ∧
    (continuityWrite "a" "帧" [sceneA, sceneBFilled])[1]? = some sceneBFilled := by
  constructor
  · exact (continuity_first_writer_wins .single [sceneA, sceneBFilled]
      [sceneA, sceneBFilled] "a" (.ok "帧")).1 sceneBFilled (by decide) (by decide)
  · exact (continuity_first_writer_wins .single [sceneA, sceneB]
      [sceneA, sceneBFilled] "a" (.ok "帧")).2
      (continuityWrite "a" "帧" [sceneA, sceneBFilled]) 1 sceneBFilled
      (by decide) (by decide) (by decide)

/-- C10: whenever the continuity write callback runs, the target position is
re-resolved by id against the write-time list `current` (the snapshot plays
no role): if the completed shot's id is absent from `current` or its first
occurrence is the last element, the list is returned unchanged; otherwise
the shot immediately after that first occurrence receives the extracted
frame, and only if its slot is still empty. -/
theorem continuity_write_resolves_current (mode : AppMode)
    (snapshot current st : List Scene) (id frame : String)
    (hw : continuityPhase mode snapshot id (.ok frame) current = some st) :
    ((∀ s ∈ current, (s.id == id) = false) → st = current) ∧
    (∀ pre sc, current = pre ++ [sc] → (sc.id == id) = true →
      (∀ t ∈ pre, (t.id == id) = false) → st = current) ∧
    (∀ pre sc next suf, current = pre ++ sc :: next :: suf → (sc.id == id) = true →
      (∀ t ∈ pre, (t.id == id) = false) →
      st = pre ++ sc ::
        (if optTruthy next.generatedImage then next
         else { next with
                  generatedImage := some frame,
                  imageStatus := .completed }) :: suf) := by
  obtain ⟨f, hf, rfl⟩ := continuityPhase_eq_some mode snapshot current st id (.ok frame) hw
  injection hf with hff
  subst hff
  refine ⟨?_, ?_, ?_⟩
  · intro habsent
    simp only [continuityWrite]
    rw [List.findIdx_eq_length.mpr habsent]
    simp
  · intro pre sc hcur hsc hpre
    subst hcur
    simp only [continuityWrite]
    rw [findIdx_append_cons (fun s => s.id == id) pre sc [] hpre hsc]
    have hlen : (pre ++ [sc]).length = pre.length + 1 := by simp
    rw [if_pos (Or.inr (by rw [hlen]; omega))]
  · intro pre sc next suf hcur hsc hpre
    subst hcur
    simp only [continuityWrite]
    rw [findIdx_append_cons (fun s => s.id == id) pre sc (next :: suf) hpre hsc]
    have hlen : (pre ++ sc :: next :: suf).length = pre.length + suf.length + 2 := by
      simp; omega
    rw [if_neg (by rw [hlen]; omega)]
    have hget : (pre ++ sc :: next :: suf)[pre.length + 1]? = some next := by
      rw [List.getElem?_append_right (by omega)]
      simp
    simp only [hget]
    by_cases htruthy : optTruthy next.generatedImage = true
    · rw [if_pos htruthy, if_pos htruthy]
    · rw [if_neg htruthy, if_neg htruthy]
      have hset := set_append_length_add pre (sc :: next :: suf) 1
        { next with generatedImage := some frame, imageStatus := .completed }
      rw [show pre.length + 1 + 0 = pre.length + 1 by omega] at hset
      rw [hset]
      rfl

theorem continuityPhase_error_none (mode : AppMode) (snapshot : List Scene)
    (id em : String) (current : List Scene) :
    continuityPhase mode snapshot id (.error em) current = none := by
  simp only [continuityPhase]
  split
  · split
    · rfl
    · split
      · rfl
      · rfl
  · rfl

/-- C8: when video generation for a shot succeeds and the frame extraction
fails or times out, the failure is only logged: the run ends at the
video-success state — the shot's video state is `completed` with its error
cleared, every other shot (in particular the successor and its still-empty
asset slot) is exactly unchanged, and the video-generation operation itself
does not fail. -/
theorem extraction_failure_swallowed (mode : AppMode) (ar id : String)
    (po : Option String) (url em : String) (scenes : List Scene) (scene : Scene)
    (hfind : scenes.find? (fun s => s.id == id) = some scene) :
    handleGenerateVideoStates mode ar id po (.ok url) (.error em) scenes
      = [scenes, startVideoUpd id po scenes,
         videoSuccessUpd id url ar (startVideoUpd id po scenes)] ∧
    ∀ (j : Nat) (sb : Scene), scenes[j]? = some sb →
      (videoSuccessUpd id url ar (startVideoUpd id po scenes))[j]?
        = some (if sb.id == id then
            { sb with
                status := .completed, errorMessage := none,
                videoUrl := some url, targetAspect := some ar,
                visualPrompt := jsOrStr po sb.visualPrompt } else sb) := by
  constructor
  · simp only [handleGenerateVideoStates, hfind]
    rw [continuityPhase_error_none]
    rfl
  · intro j sb hj
    simp only [videoSuccessUpd, startVideoUpd, List.getElem?_map, hj, Option.map_some']
    by_cases hid : (sb.id == id) = true
    · simp [hid]
    · simp only [Bool.not_eq_true] at hid
      simp [hid]

/-- C8 witness: a concrete two-shot run where video generation succeeds and
extraction times out ends at the success state with shot b untouched. -/
theorem extraction_failure_swallowed_witness :
    (handleGenerateVideoStates .single "16:9" "a" none (.ok "v") (.error "提取超时")
        [sceneA, sceneB]
      = [[sceneA, sceneB], startVideoUpd "a" none [sceneA, sceneB],
         videoSuccessUpd "a" "v" "16:9" (startVideoUpd "a" none [sceneA, sceneB])]) ∧
    (videoSuccessUpd "a" "v" "16:9" (startVideoUpd "a" none [sceneA, sceneB]))[1]?
      = some (if sceneB.id == "a" then
          { sceneB with
              status := .completed, errorMessage := none,
              videoUrl := some "v", targetAspect := some "16:9",
              visualPrompt := jsOrStr none sceneB.visualPrompt } else sceneB) := by
  constructor
  · exact (extraction_failure_swallowed .single "16:9" "a" none "v" "提取超时"
      [sceneA, sceneB] sceneA (by decide)).1
  · exact (extraction_failure_swallowed .single "16:9" "a" none "v" "提取超时"
      [sceneA, sceneB] sceneA (by decide)).2 1 sceneB (by decide)

/-- C7: the extractor releases the media handle only on the exits that pass
through capture's `finally` (successful capture, missing 2d context, or a
capture-time exception); on the 10-second timeout and on a decoder error the
promise rejects without clearing the video source or resetting the decoder. -/
theorem extract_release_only_on_capture :
    (extractLastFrameFromVideo .timeoutFired).released = false ∧
    (extractLastFrameFromVideo .decodeFailed).released = false ∧
    ∀ ev, (extractLastFrameFromVideo ev).released = isCaptureEvent ev := by
  refine ⟨rfl, rfl, ?_⟩
  intro ev
  cases ev <;> rfl

/-- C9 counterexample: a failing first-frame request on a shot with no
stored image prompt and no truthy override ends in the error state with the
message recorded, but the shot's imagePrompt has changed from `none` to the
lazily generated prompt — so a field other than the error record was not
left unchanged. -/
theorem first_frame_failure_changes_other_field :
    (handleGenerateFirstFrameStates "c" none (.ok "补全提示词") (.error "boom")
        [sceneNoPrompt]).length = 4 ∧
    (handleGenerateFirstFrameStates "c" none (.ok "补全提示词") (.error "boom")
        [sceneNoPrompt])[3]?
      = some [{ sceneNoPrompt with
                  imageStatus := .error, imageErrorMessage := some "boom",
                  imagePrompt := some "补全提示词" }] ∧
    sceneNoPrompt.imagePrompt = none ∧
    some "补全提示词" ≠ (none : Option String) := by
  refine ⟨by decide, by decide, rfl, by decide⟩

/-- C9 (amended): when a first-frame generation request fails, the shot ends
in imageStatus `error` with the triggering error's message recorded, and its
start-frame asset and every other field are unchanged — except on the
lazy-prompt path (no truthy override and no truthy stored prompt) where a
successfully generated prompt is persisted onto the shot (and visualPrompt
rewritten with its snapshot value) before the failing image call.  Shots
with a different id are untouched. -/
theorem first_frame_failure_records_error (id : String) (po : Option String)
    (pg ig : Except String String) (msg p : String) (scenes : List Scene)
    (scene : Scene) (hfind : scenes.find? (fun s => s.id == id) = some scene) :
    (optTruthy (jsOrOpt po scene.imagePrompt) = true →
      handleGenerateFirstFrameStates id po pg (.error msg) scenes
        = [scenes, startImageGenUpd id scenes,
           imageErrorUpd id msg (startImageGenUpd id scenes)]) ∧
    (optTruthy (jsOrOpt po scene.imagePrompt) = false →
      handleGenerateFirstFrameStates id po (.error msg) ig scenes
        = [scenes, startImageGenUpd id scenes,
           imageErrorUpd id msg (startImageGenUpd id scenes)]) ∧
    (optTruthy (jsOrOpt po scene.imagePrompt) = false →
      handleGenerateFirstFrameStates id po (.ok p) (.error msg) scenes
        = [scenes, startImageGenUpd id scenes,
           updatePromptUpd id scene.visualPrompt (some p) (startImageGenUpd id scenes),
           imageErrorUpd id msg
             (updatePromptUpd id scene.visualPrompt (some p) (startImageGenUpd id scenes))]) ∧
    (∀ (j : Nat) (sb : Scene), scenes[j]? = some sb →
      (imageErrorUpd id msg (startImageGenUpd id scenes))[j]?
        = some (if sb.id == id then
            { sb with imageStatus := .error, imageErrorMessage := some msg }
          else sb)) ∧
    (∀ (j : Nat) (sb : Scene), scenes[j]? = some sb →
      (imageErrorUpd id msg
          (updatePromptUpd id scene.visualPrompt (some p) (startImageGenUpd id scenes)))[j]?
        = some (if sb.id == id then
            { sb with
                visualPrompt := scene.visualPrompt, imagePrompt := some p,
                imageStatus := .error, imageErrorMessage := some msg }
          else sb)) := by
  refine ⟨?_, ?_, ?_, ?_, ?_⟩
  · intro htruthy
    simp only [handleGenerateFirstFrameStates, hfind, htruthy, if_true]
  · intro hfalsy
    simp only [handleGenerateFirstFrameStates, hfind, hfalsy, Bool.false_eq_true,
      if_false]
  · intro hfalsy
    simp only [handleGenerateFirstFrameStates, hfind, hfalsy, Bool.false_eq_true,
      if_false]
  · intro j sb hj
    simp only [imageErrorUpd, startImageGenUpd, List.getElem?_map, hj, Option.map_some']
    by_cases hid : (sb.id == id) = true
    · simp [hid]
    · simp only [Bool.not_eq_true] at hid
      simp [hid]
  · intro j sb hj
    simp only [imageErrorUpd, updatePromptUpd, startImageGenUpd, List.getElem?_map,
      hj, Option.map_some']
    by_cases hid : (sb.id == id) = true
    · simp [hid]
    · simp only [Bool.not_eq_true] at hid
      simp [hid]

/-- C9 witness: a concrete failing request on shot a (stored prompt present)
records the error and, pointwise, shot a gains only the error fields while
shot b is untouched; a concrete lazy-path failing request on shot c persists
the generated prompt before recording the error. -/
theorem first_frame_failure_records_error_witness :
    (handleGenerateFirstFrameStates "a" none (.error "nope") (.error "坏了")
        [sceneA, sceneB]
      = [[sceneA, sceneB], startImageGenUpd "a" [sceneA, sceneB],
         imageErrorUpd "a" "坏了" (startImageGenUpd "a" [sceneA, sceneB])]) ∧
    (imageErrorUpd "a" "坏了" (startImageGenUpd "a" [sceneA, sceneB]))[0]?
      = some (if sceneA.id == "a" then
          { sceneA with imageStatus := .error, imageErrorMessage := some "坏了" }
        else sceneA) ∧
    (handleGenerateFirstFrameStates "c" none (.ok "新提示") (.error "坏了")
        [sceneNoPrompt]
      = [[sceneNoPrompt], startImageGenUpd "c" [sceneNoPrompt],
         updatePromptUpd "c" sceneNoPrompt.visualPrompt (some "新提示")
           (startImageGenUpd "c" [sceneNoPrompt]),
         imageErrorUpd "c" "坏了"
           (updatePromptUpd "c" sceneNoPrompt.visualPrompt (some "新提示")
             (startImageGenUpd "c" [sceneNoPrompt]))]) := by
  refine ⟨?_, ?_, ?_⟩
  · exact (first_frame_failure_records_error "a" none (.error "nope") (.error "nope")
      "坏了" "新提示" [sceneA, sceneB] sceneA (by decide)).1 (by decide)
  · exact (first_frame_failure_records_error "a" none (.error "nope") (.error "nope")
      "坏了" "新提示" [sceneA, sceneB] sceneA (by decide)).2.2.2.1 0 sceneA (by decide)
  · exact (first_frame_failure_records_error "c" none (.ok "新提示") (.error "坏了")
      "坏了" "新提示" [sceneNoPrompt] sceneNoPrompt (by decide)).2.2.1 (by decide)

theorem fillPromptsFrom_length (results : List RawSceneResponse) :
    ∀ (segs : List String) (idx : Nat),
    (fillPromptsFrom results idx segs).length = segs.length := by
  intro segs
  induction segs with
  | nil => intro idx; rfl
  | cons seg rest ih => intro idx; simp [fillPromptsFrom, ih (idx + 1)]

theorem fillPromptsFrom_segments (results : List RawSceneResponse) :
    ∀ (segs : List String) (idx : Nat),
    (fillPromptsFrom results idx segs).map GeneratedSceneResponse.script_segment = segs := by
  intro segs
  induction segs with
  | nil => intro idx; rfl
  | cons seg rest ih => intro idx; simp [fillPromptsFrom, ih (idx + 1)]

theorem fillPromptsFrom_getElem (results : List RawSceneResponse) :
    ∀ (segs : List String) (idx j : Nat),
    (fillPromptsFrom results idx segs)[j]?
      = (segs[j]?).map (fun seg =>
          { script_segment := seg,
            visual_prompt :=
              jsOrStr ((results[idx + j]?).bind RawSceneResponse.visual_prompt)
                promptPlaceholder,
            image_prompt :=
              jsOrStr ((results[idx + j]?).bind RawSceneResponse.image_prompt)
                promptPlaceholder }) := by
  intro segs
  induction segs with
  | nil => intro idx j; simp [fillPromptsFrom]
  | cons seg rest ih =>
    intro idx j
    cases j with
    | zero => simp [fillPromptsFrom]
    | succ j =>
      simp only [fillPromptsFrom, List.getElem?_cons_succ, ih (idx + 1) j]
      rw [show idx + 1 + j = idx + (j + 1) by omega]

/-- C5: for any parsed response (of any length), batch prompt generation
returns a list of exactly n entries whose script_segment values are the
input segments in order; entries at indices beyond the parsed response carry
the failure placeholder in both prompt fields; and a parsed response never
produces the thrown parse-failure outcome. -/
theorem batch_prompts_pad_to_input (segments : List String)
    (results : List RawSceneResponse) :
    ∃ out, generatePromptsForContinuousSegments segments (some results) = .ok out ∧
      out.length = segments.length ∧
      out.map GeneratedSceneResponse.script_segment = segments ∧
      (∀ (i : Nat) (r : GeneratedSceneResponse), results.length ≤ i →
        out[i]? = some r →
        r.visual_prompt = promptPlaceholder ∧ r.image_prompt = promptPlaceholder) := by
  refine ⟨fillPromptsFrom results 0 segments, rfl,
    fillPromptsFrom_length results segments 0,
    fillPromptsFrom_segments results segments 0, ?_⟩
  intro i r hle hout
  rw [fillPromptsFrom_getElem results segments 0 i] at hout
  rw [show 0 + i = i by omega, List.getElem?_eq_none_iff.mpr hle] at hout
  cases hseg : segments[i]? with
  | none => rw [hseg] at hout; cases hout
  | some seg =>
    rw [hseg] at hout
    cases hout
    exact ⟨rfl, rfl⟩

/-- C5 witness: three input segments against a single-entry response yield
three entries in input order, the third carrying the placeholder prompts. -/
theorem batch_prompts_pad_to_input_witness :
    ∃ out, generatePromptsForContinuousSegments ["甲", "乙", "丙"]
        (some [{ visual_prompt := some "画", image_prompt := some "帧" }]) = .ok out ∧
      out.length = 3 ∧
      out.map GeneratedSceneResponse.script_segment = ["甲", "乙", "丙"] ∧
      ∃ r, out[2]? = some r ∧
        r.visual_prompt = promptPlaceholder ∧ r.image_prompt = promptPlaceholder := by
  obtain ⟨out, hok, hlen, hseg, hpad⟩ := batch_prompts_pad_to_input ["甲", "乙", "丙"]
    [{ visual_prompt := some "画", image_prompt := some "帧" }]
  have hlen3 : out.length = 3 := by simpa using hlen
  cases hx : out[2]? with
  | none =>
    exfalso
    have := List.getElem?_eq_none_iff.mp hx
    omega
  | some r =>
    exact ⟨out, hok, hlen3, hseg, r, hx, hpad 2 r (by decide) hx⟩

theorem jsRound_le_of_le (q : ℚ) (M : Nat) (hq : q ≤ (M : ℚ)) : jsRound q ≤ M := by
  have h1 : (⌊q + 1 / 2⌋ : ℤ) ≤ ⌊(M : ℚ) + 1 / 2⌋ := Int.floor_le_floor (by linarith)
  have h2 : ⌊(M : ℚ) + 1 / 2⌋ = (M : ℤ) := by
    rw [Int.floor_eq_iff]
    constructor <;> push_cast <;> linarith
  simp only [jsRound]
  omega

/-- C6: for a decodable image of positive dimensions and bound M: when
either source dimension exceeds M, the output is both dimensions scaled by
the single uniform factor min(M/w, M/h) and rounded, and its longest side
is at most M; when both dimensions are within M, the output dimensions are
exactly the source dimensions. -/
theorem compress_dims_bound (w h M : Nat) (hw : 0 < w) (hh : 0 < h) :
    (M < w ∨ M < h →
      compressDims w h M
        = (jsRound (w * min ((M : ℚ) / w) ((M : ℚ) / h)),
           jsRound (h * min ((M : ℚ) / w) ((M : ℚ) / h))) ∧
      (compressDims w h M).1 ≤ M ∧ (compressDims w h M).2 ≤ M) ∧
    (w ≤ M ∧ h ≤ M → compressDims w h M = (w, h)) := by
  have hwq : (0 : ℚ) < w := by exact_mod_cast hw
  have hhq : (0 : ℚ) < h := by exact_mod_cast hh
  constructor
  · intro hcond
    have heq : compressDims w h M
        = (jsRound (w * min ((M : ℚ) / w) ((M : ℚ) / h)),
           jsRound (h * min ((M : ℚ) / w) ((M : ℚ) / h))) := by
      simp only [compressDims, if_pos hcond]
    refine ⟨heq, ?_, ?_⟩
    · rw [heq]
      apply jsRound_le_of_le
      calc (w : ℚ) * min ((M : ℚ) / w) ((M : ℚ) / h)
          ≤ w * ((M : ℚ) / w) :=
            mul_le_mul_of_nonneg_left (min_le_left _ _) (le_of_lt hwq)
        _ = M := by field_simp
    · rw [heq]
      apply jsRound_le_of_le
      calc (h : ℚ) * min ((M : ℚ) / w) ((M : ℚ) / h)
          ≤ h * ((M : ℚ) / h) :=
            mul_le_mul_of_nonneg_left (min_le_right _ _) (le_of_lt hhq)
        _ = M := by field_simp
  · intro hin
    simp only [compressDims]
    rw [if_neg (by omega)]

/-- C6 witness: a 2048x1024 source against bound 1024 comes out scaled by
the uniform factor with both sides within the bound, and an 800x600 source
is returned at its own dimensions. -/
theorem compress_dims_bound_witness :
    (compressDims 2048 1024 1024
        = (jsRound (2048 * min ((1024 : ℚ) / 2048) ((1024 : ℚ) / 1024)),
           jsRound (1024 * min ((1024 : ℚ) / 2048) ((1024 : ℚ) / 1024))) ∧
      (compressDims 2048 1024 1024).1 ≤ 1024 ∧
      (compressDims 2048 1024 1024).2 ≤ 1024) ∧
    compressDims 800 600 1024 = (800, 600) := by
  constructor
  · have hc := (compress_dims_bound 2048 1024 1024 (by decide) (by decide)).1
      (Or.inl (by decide))
    exact ⟨by exact_mod_cast hc.1, hc.2.1, hc.2.2⟩
  · exact (compress_dims_bound 800 600 1024 (by decide) (by decide)).2 ⟨by decide, by decide⟩

theorem sceneStepOk_refl (s : Scene) : sceneStepOk s s := ⟨Or.inl rfl, Or.inl rfl⟩

theorem listStepOk_refl (l : List Scene) : listStepOk l l := by
  intro j sb sa hb ha
  rw [hb] at ha
  cases ha
  exact sceneStepOk_refl sb

theorem listStepOk_of_map_mem (f : Scene → Scene) (l : List Scene)
    (hf : ∀ s ∈ l, sceneStepOk s (f s)) : listStepOk l (l.map f) := by
  intro j sb sa hb ha
  rw [List.getElem?_map, hb] at ha
  cases ha
  exact hf sb (List.getElem?_mem hb)

theorem step_start_image (id : String) (l : List Scene) :
    listStepOk l (startImageGenUpd id l) := by
  apply listStepOk_of_map_mem
  intro s _
  by_cases hm : (s.id == id) = true
  · exact ⟨Or.inl (by simp [hm]), Or.inr (Or.inl (by simp [hm]))⟩
  · simp only [Bool.not_eq_true] at hm
    rw [if_neg (by simp [hm])]
    exact sceneStepOk_refl s

theorem step_start_video (id : String) (po : Option String) (l : List Scene) :
    listStepOk l (startVideoUpd id po l) := by
  apply listStepOk_of_map_mem
  intro s _
  by_cases hm : (s.id == id) = true
  · exact ⟨Or.inr (Or.inl (by simp [hm])), Or.inl (by simp [hm])⟩
  · simp only [Bool.not_eq_true] at hm
    rw [if_neg (by simp [hm])]
    exact sceneStepOk_refl s

theorem step_update_prompt (id vp : String) (ip : Option String) (l : List Scene) :
    listStepOk l (updatePromptUpd id vp ip l) := by
  apply listStepOk_of_map_mem
  intro s _
  by_cases hm : (s.id == id) = true
  · exact ⟨Or.inl (by simp [hm]), Or.inl (by simp [hm])⟩
  · simp only [Bool.not_eq_true] at hm
    rw [if_neg (by simp [hm])]
    exact sceneStepOk_refl s

theorem step_video_success (id url ar : String) (l : List Scene)
    (h : ∀ s ∈ l, (s.id == id) = true → s.status = .generating_video) :
    listStepOk l (videoSuccessUpd id url ar l) := by
  apply listStepOk_of_map_mem
  intro s hs
  by_cases hm : (s.id == id) = true
  · exact ⟨Or.inr (Or.inr ⟨h s hs hm, Or.inl (by simp [hm])⟩), Or.inl (by simp [hm])⟩
  · simp only [Bool.not_eq_true] at hm
    rw [if_neg (by simp [hm])]
    exact sceneStepOk_refl s

theorem step_video_error (id msg : String) (l : List Scene)
    (h : ∀ s ∈ l, (s.id == id) = true → s.status = .generating_video) :
    listStepOk l (videoErrorUpd id msg l) := by
  apply listStepOk_of_map_mem
  intro s hs
  by_cases hm : (s.id == id) = true
  · exact ⟨Or.inr (Or.inr ⟨h s hs hm, Or.inr (by simp [hm])⟩), Or.inl (by simp [hm])⟩
  · simp only [Bool.not_eq_true] at hm
    rw [if_neg (by simp [hm])]
    exact sceneStepOk_refl s

theorem step_image_success (id url : String) (l : List Scene)
    (h : ∀ s ∈ l, (s.id == id) = true → s.imageStatus = .generating) :
    listStepOk l (imageSuccessUpd id url l) := by
  apply listStepOk_of_map_mem
  intro s hs
  by_cases hm : (s.id == id) = true
  · exact ⟨Or.inl (by simp [hm]),
      Or.inr (Or.inr (Or.inl ⟨h s hs hm, Or.inl (by simp [hm])⟩))⟩
  · simp only [Bool.not_eq_true] at hm
    rw [if_neg (by simp [hm])]
    exact sceneStepOk_refl s

theorem step_image_error (id msg : String) (l : List Scene)
    (h : ∀ s ∈ l, (s.id == id) = true → s.imageStatus = .generating) :
    listStepOk l (imageErrorUpd id msg l) := by
  apply listStepOk_of_map_mem
  intro s hs
  by_cases hm : (s.id == id) = true
  · exact ⟨Or.inl (by simp [hm]),
      Or.inr (Or.inr (Or.inl ⟨h s hs hm, Or.inr (by simp [hm])⟩))⟩
  · simp only [Bool.not_eq_true] at hm
    rw [if_neg (by simp [hm])]
    exact sceneStepOk_refl s

theorem listStepOk_continuityWrite (id frame : String) (l : List Scene) :
    listStepOk l (continuityWrite id frame l) := by
  simp only [continuityWrite]
  split
  · exact listStepOk_refl l
  · split
    · exact listStepOk_refl l
    · rename_i next hnext
      split
      · exact listStepOk_refl l
      · rename_i hfalse
        intro j sb sa hb ha
        by_cases hji : l.findIdx (fun s => s.id == id) + 1 = j
        · subst hji
          rw [hnext] at hb
          cases hb
          have hlt : l.findIdx (fun s => s.id == id) + 1 < l.length := by
            by_contra hcon
            rw [List.getElem?_eq_none_iff.mpr (by omega)] at hnext
            cases hnext
          rw [List.getElem?_set_self hlt] at ha
          cases ha
          exact ⟨Or.inl rfl,
            Or.inr (Or.inr (Or.inr ⟨by simpa using hfalse, rfl⟩))⟩
        · rw [List.getElem?_set_ne hji, hb] at ha
          cases ha
          exact sceneStepOk_refl sb

theorem listStepOk_addScene (newId : String) (l : List Scene) :
    listStepOk l (addSceneUpd newId l) := by
  intro j sb sa hb ha
  have hj : j < l.length := by
    by_contra hcon
    rw [List.getElem?_eq_none_iff.mpr (by omega)] at hb
    cases hb
  rw [addSceneUpd, List.getElem?_append_left hj, hb] at ha
  cases ha
  exact sceneStepOk_refl sb

theorem startVideoUpd_matched_status (id : String) (po : Option String)
    (l : List Scene) :
    ∀ s ∈ startVideoUpd id po l, (s.id == id) = true → s.status = .generating_video := by
  intro s hs hid
  simp only [startVideoUpd, List.mem_map] at hs
  obtain ⟨t, -, rfl⟩ := hs
  by_cases hm : (t.id == id) = true
  · simp [hm]
  · simp only [Bool.not_eq_true] at hm
    rw [if_neg (by simp [hm])] at hid
    rw [hm] at hid
    cases hid

theorem startImageGenUpd_matched_imageStatus (id : String) (l : List Scene) :
    ∀ s ∈ startImageGenUpd id l, (s.id == id) = true → s.imageStatus = .generating := by
  intro s hs hid
  simp only [startImageGenUpd, List.mem_map] at hs
  obtain ⟨t, -, rfl⟩ := hs
  by_cases hm : (t.id == id) = true
  · simp [hm]
  · simp only [Bool.not_eq_true] at hm
    rw [if_neg (by simp [hm])] at hid
    rw [hm] at hid
    cases hid

theorem updatePromptUpd_matched_imageStatus (id vp : String) (ip : Option String)
    (l : List Scene)
    (h : ∀ s ∈ l, (s.id == id) = true → s.imageStatus = .generating) :
    ∀ s ∈ updatePromptUpd id vp ip l, (s.id == id) = true →
      s.imageStatus = .generating := by
  intro s hs hid
  simp only [updatePromptUpd, List.mem_map] at hs
  obtain ⟨t, ht, rfl⟩ := hs
  by_cases hm : (t.id == id) = true
  · simpa [hm] using h t ht hm
  · simp only [Bool.not_eq_true] at hm
    rw [if_neg (by simp [hm])] at hid ⊢
    exact h t ht hid

/-- C2 counterexample: in a reachable two-shot continuous run (both shots
fresh from splitting), a successful video generation for shot a triggers the
continuity write, which moves shot b's imageState from `idle` directly to
`completed` between two consecutive orchestrator states — a transition
outside idle → generating → (completed | error).  (Re-triggering generation
on a completed or failed shot likewise re-enters `generating`.) -/
theorem image_state_skips_generating :
    ((handleGenerateVideoStates .single "16:9" "a" none (.ok "v") (.ok "帧")
        [sceneA, sceneB]).length = 4) ∧
    (((handleGenerateVideoStates .single "16:9" "a" none (.ok "v") (.ok "帧")
        [sceneA, sceneB])[2]?.bind (fun st => st[1]?)).map Scene.imageStatus
      = some .idle) ∧
    (((handleGenerateVideoStates .single "16:9" "a" none (.ok "v") (.ok "帧")
        [sceneA, sceneB])[3]?.bind (fun st => st[1]?)).map Scene.imageStatus
      = some .completed) ∧
    specImageStep .idle .completed = false := by
  refine ⟨by decide, by decide, by decide, by decide⟩

/-- C2 (amended): both status fields only ever hold the four defined values
(they are drawn from the two four-valued enumerations by construction), and
along every sequentially run orchestrator operation — first-frame
generation, video generation with its continuity step, manual add, prompt
update — each observed per-shot step is within this discipline: the state
is unchanged, or a generation (re)start moves the shot's own state to
`generating` from any prior value (including completed and error, for
re-generation), or a running generation resolves to completed or error, or
the continuity write moves a shot whose asset slot was still empty directly
to imageState `completed`. -/
theorem shot_state_transitions (mode : AppMode) (ar id newId : String)
    (po : Option String) (pg ig vg ex : Except String String)
    (scenes : List Scene) :
    (handleGenerateFirstFrameStates id po pg ig scenes).Chain' listStepOk ∧
    (handleGenerateVideoStates mode ar id po vg ex scenes).Chain' listStepOk ∧
    listStepOk scenes (addSceneUpd newId scenes) ∧
    (∀ (vp : String) (ipo : Option String),
      listStepOk scenes (updatePromptUpd id vp ipo scenes)) := by
  refine ⟨?_, ?_, listStepOk_addScene newId scenes,
    fun vp ipo => step_update_prompt id vp ipo scenes⟩
  · simp only [handleGenerateFirstFrameStates]
    split
    · exact List.chain'_cons.mpr ⟨step_start_image id scenes, List.chain'_singleton _⟩
    · split
      · split
        · exact List.chain'_cons.mpr ⟨step_start_image id scenes,
            List.chain'_cons.mpr ⟨step_image_success id _ _
              (startImageGenUpd_matched_imageStatus id scenes),
              List.chain'_singleton _⟩⟩
        · exact List.chain'_cons.mpr ⟨step_start_image id scenes,
            List.chain'_cons.mpr ⟨step_image_error id _ _
              (startImageGenUpd_matched_imageStatus id scenes),
              List.chain'_singleton _⟩⟩
      · split
        · exact List.chain'_cons.mpr ⟨step_start_image id scenes,
            List.chain'_cons.mpr ⟨step_image_error id _ _
              (startImageGenUpd_matched_imageStatus id scenes),
              List.chain'_singleton _⟩⟩
        · split
          · exact List.chain'_cons.mpr ⟨step_start_image id scenes,
              List.chain'_cons.mpr ⟨step_update_prompt id _ _ _,
                List.chain'_cons.mpr ⟨step_image_success id _ _
                  (updatePromptUpd_matched_imageStatus id _ _ _
                    (startImageGenUpd_matched_imageStatus id scenes)),
                  List.chain'_singleton _⟩⟩⟩
          · exact List.chain'_cons.mpr ⟨step_start_image id scenes,
              List.chain'_cons.mpr ⟨step_update_prompt id _ _ _,
                List.chain'_cons.mpr ⟨step_image_error id _ _
                  (updatePromptUpd_matched_imageStatus id _ _ _
                    (startImageGenUpd_matched_imageStatus id scenes)),
                  List.chain'_singleton _⟩⟩⟩
  · simp only [handleGenerateVideoStates]
    split
    · exact List.chain'_cons.mpr ⟨step_start_video id po scenes, List.chain'_singleton _⟩
    · split
      · exact List.chain'_cons.mpr ⟨step_start_video id po scenes,
          List.chain'_cons.mpr ⟨step_video_error id _ _
            (startVideoUpd_matched_status id po scenes),
            List.chain'_singleton _⟩⟩
      · rename_i url
        cases hphase : continuityPhase mode scenes id ex
            (videoSuccessUpd id url ar (startVideoUpd id po scenes)) with
        | none =>
          exact List.chain'_cons.mpr ⟨step_start_video id po scenes,
            List.chain'_cons.mpr ⟨step_video_success id url ar _
              (startVideoUpd_matched_status id po scenes),
              List.chain'_singleton _⟩⟩
        | some st =>
          obtain ⟨frame, -, rfl⟩ :=
            continuityPhase_eq_some mode scenes
              (videoSuccessUpd id url ar (startVideoUpd id po scenes)) st id ex hphase
          exact List.chain'_cons.mpr ⟨step_start_video id po scenes,
            List.chain'_cons.mpr ⟨step_video_success id url ar _
              (startVideoUpd_matched_status id po scenes),
              List.chain'_cons.mpr ⟨listStepOk_continuityWrite id frame _,
                List.chain'_singleton _⟩⟩⟩

/-- C2 amended witness: a concrete application of the step discipline, via
the manual-add conjunct at shot a. -/
theorem shot_state_transitions_witness : sceneStepOk sceneA sceneA := by
  exact (shot_state_transitions .single "16:9" "a" "n" none (.ok "p") (.ok "u")
    (.ok "v") (.ok "帧") [sceneA]).2.2.1 0 sceneA sceneA (by decide) (by decide)

/-- C10 witness: at a concrete issued write with shot a first and shot b
second and empty, the write lands on shot b. -/
theorem continuity_write_resolves_current_witness :
    continuityWrite "a" "帧" [sceneA, sceneB]
      = [sceneA, if optTruthy sceneB.generatedImage then sceneB
                 else { sceneB with
                          generatedImage := some "帧",
                          imageStatus := .completed }] := by
  exact (continuity_write_resolves_current .single [sceneA, sceneB] [sceneA, sceneB]
    (continuityWrite "a" "帧" [sceneA, sceneB]) "a" "帧" (by decide)).2.2
    [] sceneA sceneB [] rfl (by decide) (by decide)

end DramaDirector
